import Mathlib

/-!
Verification of the 589-backend synchronization engine.

The repository synchronizes a MongoDB token collection with XRPL ledger
nodes and the XRPLF HTTP data API.  This file embeds the pure content of
the relevant source functions — the decimal metrics calculator
(`bignumber.js` arithmetic), the `kingOfTheHill` merge-update, the
endpoint failover client, the per-entity batch runner, and the HTTP
retry loop — as executable Lean definitions and proves properties of
them.

Modelling conventions:
* `bignumber.js` decimal values are embedded as `ℚ`.  The sources
  configure only `EXPONENTIAL_AT`, so division carries the library's
  default `DECIMAL_PLACES = 20` and `ROUNDING_MODE = 4` (round half
  away from zero); `dividedBy` below rounds the exact quotient to 20
  decimal places accordingly.  Addition, subtraction and multiplication
  of decimals are exact in `bignumber.js`, hence plain `ℚ` operations.
* Asynchronous control flow (failover loops, retry loops, worker pools)
  is flattened to sequential recursion over the list of per-attempt or
  per-entity outcomes; network results are supplied by an oracle
  argument (an `Except String _` per attempt).
* Timestamps are milliseconds as `ℤ`; the event timeline of a single
  WebSocket attempt is given by explicit arrival times in `ℕ`
  milliseconds.
-/

namespace XrpFun

/-! ### Decimal arithmetic (`bignumber.js`, default configuration) -/

/-- Round half away from zero to an integer; for nonnegative inputs
this is `⌊x + 1/2⌋` (`bignumber.js` `ROUNDING_MODE = 4`, the default). -/
def roundHalfUp (x : ℚ) : ℤ := ⌊x + 1/2⌋

/-- The scale of `DECIMAL_PLACES = 20`: `10^20`. -/
def decimalScale : ℚ := 100000000000000000000

/-- Round a rational to 20 decimal places, half away from zero — the
precision every `bignumber.js` division result carries under the
library's default configuration (the sources set only `EXPONENTIAL_AT`,
never `DECIMAL_PLACES`). -/
def roundDp20 (x : ℚ) : ℚ :=
  if x < 0 then -((roundHalfUp (-x * decimalScale) : ℚ) / decimalScale)
  else (roundHalfUp (x * decimalScale) : ℚ) / decimalScale

/-- `BigNumber.prototype.dividedBy`: the exact quotient rounded to the
configured 20 decimal places.  (Division by zero is modelled only where
the sources guard it; `ℚ` yields `0` there.) -/
def dividedBy (x y : ℚ) : ℚ := roundDp20 (x / y)

/-- `xrpAmountBN = new BigNumber(ammInfo.amount).dividedBy(1e6)`
(src/unnamed/part_000 line 190): drops to XRP. -/
def xrpAmountOfDrops (amount : ℚ) : ℚ := dividedBy amount 1000000

/-- `spotPriceBN = xrpAmountBN.dividedBy(tokenAmountBN)`
(src/unnamed/part_000 line 194). -/
def spotPrice (xrpAmount tokenAmount : ℚ) : ℚ := dividedBy xrpAmount tokenAmount

/-- `pricePerXRPBN = tokenAmountBN.dividedBy(xrpAmountBN)`
(src/unnamed/part_000 line 197). -/
def pricePerXRP (xrpAmount tokenAmount : ℚ) : ℚ := dividedBy tokenAmount xrpAmount

/-! ### King of the Hill status -/

/-- The `kingOfTheHill` field value: `{label, timestamp}`. -/
structure KothStatus where
  label : String
  timestamp : ℤ
  deriving DecidableEq, Repr

/-- The `kingOfTheHill` value a cycle carries into its merge-update
(src/unnamed/part_000 lines 222-230, also part_001 lines 175-183 and
part_002 lines 185-193):

```js
let kingOfTheHill = token.kingOfTheHill;
if (marketCapBN.isGreaterThanOrEqualTo(58900) && !kingOfTheHill) {
  kingOfTheHill = { label: "King of the hill", timestamp: new Date() };
}
```
-/
def nextKingOfTheHill (marketCap : ℚ) (existing : Option KothStatus) (now : ℤ) :
    Option KothStatus :=
  if 58900 ≤ marketCap ∧ existing.isNone = true then
    some ⟨"King of the hill", now⟩
  else existing

/-- A MongoDB `$set` merge of the single field `kingOfTheHill`: when
the update document carries the field it replaces the stored value,
otherwise the stored value is left untouched. -/
def mergeKingOfTheHill (existing incoming : Option KothStatus) : Option KothStatus :=
  match incoming with
  | some k => some k
  | none => existing

/-- The `kingOfTheHill` entry of `updateFields` in
`updatePricesAndMarketCaps` (src/updateData.js lines 281-286, likewise
src/XRPLF API/livePrice.js lines 67-72): the field is added to the
update document only when newly set, never to clear or rewrite an
existing value:

```js
if (marketCap >= 58900 && !token.kingOfTheHill) {
  updateFields.kingOfTheHill = { label: "King of the hill", timestamp: new Date() };
}
```
-/
def updateDataKingField (marketCap : ℚ) (existing : Option KothStatus) (now : ℤ) :
    Option KothStatus :=
  if 58900 ≤ marketCap ∧ existing.isNone = true then
    some ⟨"King of the hill", now⟩
  else none

/-! ### Pool health (src/unnamed/part_000 lines 321-333) -/

/-- Return value of `assessPoolHealth`. -/
structure PoolHealth where
  status : String
  message : String
  deriving DecidableEq, Repr

/-- `assessPoolHealth(imbalancePercentage)` (src/unnamed/part_000 lines
321-333), an if/else-if chain over the imbalance percentage. -/
def assessPoolHealth (imbalancePercentage : ℚ) : PoolHealth :=
  if imbalancePercentage ≤ 1 then ⟨"Excellent", "Pool is well-balanced"⟩
  else if imbalancePercentage ≤ 3 then ⟨"Good", "Pool is slightly imbalanced"⟩
  else if imbalancePercentage ≤ 5 then ⟨"Fair", "Pool imbalance is noticeable"⟩
  else if imbalancePercentage ≤ 10 then ⟨"Poor", "Pool is significantly imbalanced"⟩
  else ⟨"Critical", "Pool is severely imbalanced"⟩

/-! ### Price history and percent price change (src/unnamed/part_002) -/

/-- An entry of `priceHistory`: `{timestamp, spotPrice}` (part_002
lines 196-199); the timestamp is milliseconds since the epoch. -/
structure PriceEntry where
  timestamp : ℤ
  spotPrice : ℚ
  deriving DecidableEq, Repr

/-- `calculatePriceChange(priceHistory, hoursAgo)` (src/unnamed/part_002
lines 283-305), with the implicit `Date.now()` passed explicitly as
`now`.  `Array.prototype.find` returns the first entry in list order
whose timestamp is at or after `now − hoursAgo` hours;
`priceHistory[priceHistory.length - 1]` is `getLast?`.  The inner
`none` branch is unreachable in the source (a successful `find` implies
a nonempty array) and is given the same `0` the outer branch returns. -/
def calculatePriceChange (priceHistory : List PriceEntry) (hoursAgo : ℤ) (now : ℤ) : ℚ :=
  let targetTime := now - hoursAgo * 60 * 60 * 1000
  match priceHistory.find? (fun e => decide (targetTime ≤ e.timestamp)) with
  | some pastPriceEntry =>
    match priceHistory.getLast? with
    | some currentEntry =>
      if pastPriceEntry.spotPrice = 0 then 0
      else dividedBy (currentEntry.spotPrice - pastPriceEntry.spotPrice)
             pastPriceEntry.spotPrice * 100
    | none => 0
  | none => 0

/-! ### Endpoint failover client (src/unnamed/part_000 lines 30-121) -/

/-- The ordered endpoint list `XRPL_WSS_LIST` (src/unnamed/part_000
lines 30-34). -/
def XRPL_WSS_LIST : List String :=
  ["wss://s2.ripple.com/", "wss://s1.ripple.com/", "wss://xrplcluster.com/"]

/-- `getAMMInfo(asset, asset2)` (src/unnamed/part_000 lines 57-79): a
`for` loop over the endpoint list; each iteration awaits
`fetchAMMInfo` for that endpoint (for `xrplcluster.com` wrapped in the
Bottleneck limiter, which does not change the returned value), returns
its result on success, and on a caught error continues with the next
endpoint; when the loop exhausts the list it throws the fixed
aggregate error.  The result pairs the outcome with the list of
endpoints actually attempted, in order. -/
def getAMMInfoRun {α : Type} (endpoints : List String)
    (attempt : String → Except String α) : Except String α × List String :=
  match endpoints with
  | [] => (Except.error "Failed to get AMM info from all available nodes", [])
  | e :: rest =>
    match attempt e with
    | Except.ok r => (Except.ok r, [e])
    | Except.error _ =>
      let res := getAMMInfoRun rest attempt
      (res.1, e :: res.2)

/-- The `ws.on("message", ...)` handler of `fetchAMMInfo`
(src/unnamed/part_000 lines 100-113).  `parsed` encodes the result of
`JSON.parse`: `none` means the parse threw, `some none` a parsed body
with no `result` field, `some (some r)` a parsed body whose `result`
field is `r`.  The handler rejects on a parse failure and on a missing
`result` field, and resolves with `r` otherwise. -/
def fetchAMMInfoOnMessage {α : Type} (parsed : Option (Option α)) : Except String α :=
  match parsed with
  | none => Except.error "Failed to parse WebSocket message"
  | some none => Except.error "Invalid response format"
  | some (some r) => Except.ok r

/-- The `ws.on("message", ...)` handler of the inline attempt inside
`getAMMInfo` of src/unnamed/part_001 (lines 74-78), identical in
src/unnamed/part_002 (lines 53-58): `resolve(response.result)` — it
always resolves, with the `result` field as-is, which is `none`
(JavaScript `undefined`) when the field is absent. -/
def getAMMInfoOnMessageV1 {α : Type} (result : Option α) : Except String (Option α) :=
  Except.ok result

/-- The event timeline of one `fetchAMMInfo` WebSocket attempt
(src/unnamed/part_000 lines 81-121), without transport-error events:
`openAt` is the time the `open` event fires (`none`: never), `message`
is the arrival time of the single response message together with its
parse outcome (`none`: no message ever arrives).  The 10-second timer
armed at connection start closes the socket and rejects at 10000 ms —
but it is cleared by the `open` handler (line 91), so after a
successful open the promise settles only when a message arrives.
Returns the settle time and outcome, or `none` when the promise never
settles. -/
def fetchAMMInfoRun {α : Type} (openAt : Option ℕ)
    (message : Option (ℕ × Option (Option α))) : Option (ℕ × Except String α) :=
  match openAt with
  | none => some (10000, Except.error "WebSocket connection timeout")
  | some tOpen =>
    if 10000 ≤ tOpen then some (10000, Except.error "WebSocket connection timeout")
    else
      match message with
      | none => none
      | some (tMsg, parsed) => some (max tOpen tMsg, fetchAMMInfoOnMessage parsed)

/-! ### Batch synchronization runner (src/unnamed/part_000 lines 124-169,
src/XRPLF API/volumeDATA.js lines 175-254) -/

/-- `processToken(token, collection)` (src/unnamed/part_000 lines
172-318) reduced to its outcome: the whole body is wrapped in
`try { ... } catch (error) { console.error(...) }`, so a successful
unit of work persists its update (`some u`) and a failed one is logged
and swallowed (`none`) — the error never propagates to the caller. -/
def processToken {α : Type} (outcome : Except String α) : Option α :=
  match outcome with
  | Except.ok u => some u
  | Except.error _ => none

/-- `processTokens(tokens, collection)` (src/unnamed/part_000 lines
150-169): a pool of workers drains the shared queue, so every token is
processed exactly once; the worker-pool interleaving is flattened to
queue order.  Returns the updates actually persisted. -/
def processTokens {α : Type} (outcomes : List (Except String α)) : List α :=
  match outcomes with
  | [] => []
  | o :: rest =>
    match processToken o with
    | some u => u :: processTokens rest
    | none => processTokens rest

/-- The only end-of-cycle report of `updateAMMInfo`
(src/unnamed/part_000 lines 139-141): a fixed completion message,
emitted whatever the per-token outcomes were.  No updated or failed
count appears anywhere in this runner. -/
def updateAMMInfoSummary {α : Type} (_outcomes : List (Except String α)) : String :=
  "AMM information, prices, market caps, and \x27King of the Hill\x27 status updated successfully"

/-- Whether a per-entity outcome succeeded. -/
def isOkOutcome {α : Type} : Except String α → Bool :=
  fun o => match o with
  | Except.ok _ => true
  | Except.error _ => false

/-- The `updatedCount`/`errorCount` pair of `updateVolumeData`
(src/XRPLF API/volumeDATA.js lines 178-237): `updatedCount++` after
each persisted update, `errorCount++` in each per-entity `catch`,
reported in the completion log line. -/
def updateVolumeDataCounts {α : Type} (outcomes : List (Except String α)) : ℕ × ℕ :=
  match outcomes with
  | [] => (0, 0)
  | o :: rest =>
    let uf := updateVolumeDataCounts rest
    match o with
    | Except.ok _ => (uf.1 + 1, uf.2)
    | Except.error _ => (uf.1, uf.2 + 1)

/-! ### HTTP retry loop (src/updateData.js lines 90-140,
src/XRPLF API/volumeDATA.js lines 109-156) -/

/-- The outcome of one `await fetch(url)` inside `fetchWithRetry`:
either the fetch (or a later throw inside the `try`) raises, or a
response with the given HTTP status code arrives. -/
inductive FetchAttempt where
  | fetchError (msg : String)
  | response (status : ℕ)
  deriving DecidableEq, Repr

/-- How a call to `fetchWithRetry` finishes: returning a response,
throwing, or returning JavaScript `undefined` by falling off the end
of the `for` loop. -/
inductive FetchResult where
  | ok (status : ℕ)
  | thrown (msg : String)
  | undef
  deriving DecidableEq, Repr

/-- `response.ok`: HTTP status in the 200-299 range. -/
def statusOk (status : ℕ) : Bool := 200 ≤ status && status ≤ 299

/-- `fetchWithRetry(url, retries = 3, delayMs = 1000)`
(src/updateData.js lines 90-140; the volumeDATA.js copy differs only
in backoff timing): one list element per loop iteration, so the list
length is `retries`.  A 429 response waits and `continue`s — even on
the last iteration; a non-ok status or fetch error is caught and
retried, rethrown from the last iteration; an ok response is returned.
When every iteration `continue`s, the loop ends and the function
returns `undefined`. -/
def fetchWithRetry : List FetchAttempt → FetchResult
  | [] => FetchResult.undef
  | a :: rest =>
    match a with
    | FetchAttempt.fetchError msg =>
      if rest.isEmpty then FetchResult.thrown msg else fetchWithRetry rest
    | FetchAttempt.response status =>
      if status = 429 then fetchWithRetry rest
      else if statusOk status then FetchResult.ok status
      else if rest.isEmpty then FetchResult.thrown ("HTTP error! status: " ++ toString status)
      else fetchWithRetry rest

/-- The guard in `fetchVolumeData` (src/XRPLF API/volumeDATA.js lines
93-99): `if (!response) throw new Error(...)`, then
`if (!response.ok) throw ...`, else use the response. -/
def fetchVolumeDataGuard (r : FetchResult) : Except String ℕ :=
  match r with
  | FetchResult.undef => Except.error "No response received from fetchWithRetry"
  | FetchResult.thrown msg => Except.error msg
  | FetchResult.ok status =>
    if statusOk status then Except.ok status
    else Except.error ("HTTP error! status: " ++ toString status)

/-! ### Helper lemmas -/

/-- Rounding to the nearest integer (half up) moves a value by at most
`1/2`. -/
theorem abs_roundHalfUp_sub (y : ℚ) : |(roundHalfUp y : ℚ) - y| ≤ 1/2 := by
  unfold roundHalfUp
  have h1 : ((⌊y + 1/2⌋ : ℤ) : ℚ) ≤ y + 1/2 := Int.floor_le _
  have h2 : y + 1/2 - 1 < ((⌊y + 1/2⌋ : ℤ) : ℚ) := Int.sub_one_lt_floor _
  rw [abs_le]
  constructor <;> linarith

/-- Rounding a nonnegative value to 20 decimal places moves it by at
most half an ulp, `1 / (2 · 10^20)`. -/
theorem roundDp20_err (x : ℚ) (hx : 0 ≤ x) :
    |roundDp20 x - x| ≤ 1 / 200000000000000000000 := by
  unfold roundDp20
  rw [if_neg (not_lt.mpr hx)]
  have h := abs_roundHalfUp_sub (x * decimalScale)
  have hE : (decimalScale : ℚ) = 100000000000000000000 := rfl
  rw [abs_le] at h ⊢
  have e1 := h.1
  have e2 := h.2
  rw [hE] at e1 e2 ⊢
  constructor <;> linarith

/-- On a history sorted by timestamp, `find?` with an
at-or-after-target predicate returns an entry of minimal timestamp
among the matches. -/
theorem find?_timestamp_min (target : ℤ) (l : List PriceEntry) (p : PriceEntry)
    (hsorted : List.Pairwise (fun a b => a.timestamp ≤ b.timestamp) l)
    (hfind : l.find? (fun e => decide (target ≤ e.timestamp)) = some p) :
    ∀ e ∈ l, target ≤ e.timestamp → p.timestamp ≤ e.timestamp := by
  induction l with
  | nil => simp at hfind
  | cons hd tl ih =>
    rcases List.pairwise_cons.mp hsorted with ⟨hhd, htl⟩
    by_cases h : target ≤ hd.timestamp
    · rw [List.find?_cons_of_pos _ (by simpa using h)] at hfind
      obtain rfl : hd = p := by injection hfind
      intro e he _
      rcases List.mem_cons.mp he with rfl | he'
      · exact le_refl _
      · exact hhd e he'
    · rw [List.find?_cons_of_neg _ (by simpa using h)] at hfind
      intro e he htarget
      rcases List.mem_cons.mp he with rfl | he'
      · exact absurd htarget h
      · exact ih htl hfind e he' htarget

/-- On a history sorted by timestamp, the last entry has maximal
timestamp: it is the most recent one. -/
theorem getLast?_timestamp_max (l : List PriceEntry) (c : PriceEntry)
    (hsorted : List.Pairwise (fun a b => a.timestamp ≤ b.timestamp) l)
    (hlast : l.getLast? = some c) :
    ∀ e ∈ l, e.timestamp ≤ c.timestamp := by
  induction l with
  | nil => simp at hlast
  | cons hd tl ih =>
    rcases List.pairwise_cons.mp hsorted with ⟨hhd, htl⟩
    cases tl with
    | nil =>
      simp only [List.getLast?_singleton, Option.some.injEq] at hlast
      subst hlast
      intro e he
      simp only [List.mem_singleton] at he
      subst he
      exact le_refl _
    | cons b tl' =>
      rw [List.getLast?_cons_cons] at hlast
      have hrec := ih htl hlast
      intro e he
      rcases List.mem_cons.mp he with rfl | he'
      · exact le_trans (hhd b (List.mem_cons_self _ _)) (hrec b (List.mem_cons_self _ _))
      · exact hrec e he'

/-! ### Claim C1 -/

/-- Claim C1: the `kingOfTheHill` status is write-once and idempotent.
If a record already carries the status, the cycle's merge-update
leaves the status and its timestamp identical whatever market cap is
newly computed; the status is added only when the computed market cap
is at least 58900 and no status exists; applying the update twice with
the same inputs changes nothing; and the `$set` merge of the
`updatePricesAndMarketCaps` variant (which includes the field only
when newly set) produces the same post-state. -/
theorem kingOfTheHill_write_once (mc : ℚ) (k : KothStatus) (e : Option KothStatus)
    (t t' : ℤ) :
    nextKingOfTheHill mc (some k) t = some k
    ∧ nextKingOfTheHill mc (nextKingOfTheHill mc e t) t' = nextKingOfTheHill mc e t
    ∧ (58900 ≤ mc → nextKingOfTheHill mc none t = some ⟨"King of the hill", t⟩)
    ∧ (mc < 58900 → nextKingOfTheHill mc none t = none)
    ∧ mergeKingOfTheHill e (updateDataKingField mc e t) = nextKingOfTheHill mc e t
    ∧ mergeKingOfTheHill e (nextKingOfTheHill mc e t) = nextKingOfTheHill mc e t := by
  refine ⟨?_, ?_, ?_, ?_, ?_, ?_⟩ <;>
    cases e <;>
    simp_all [nextKingOfTheHill, mergeKingOfTheHill, updateDataKingField] <;>
    split_ifs <;>
    simp_all

/-- Witness for C1: both threshold hypotheses discharged at concrete
market caps. -/
theorem kingOfTheHill_write_once_witness :
    nextKingOfTheHill 60000 none 7 = some ⟨"King of the hill", 7⟩
    ∧ nextKingOfTheHill 100 none 7 = none :=
  ⟨(kingOfTheHill_write_once 60000 ⟨"King of the hill", 7⟩ none 7 8).2.2.1 (by norm_num),
   (kingOfTheHill_write_once 100 ⟨"King of the hill", 7⟩ none 7 8).2.2.2.1 (by norm_num)⟩

/-! ### Claim C2 -/

/-- Claim C2 (amended): `getAMMInfo` attempts the endpoints strictly in
list order (the attempted list is always a prefix of the endpoint
list); the first successful attempt determines the result and no later
endpoint is attempted; when every endpoint fails, the operation fails
with the fixed aggregate error message, which does not name the last
failure. -/
theorem getAMMInfo_failover {α : Type} (attempt : String → Except String α) :
    (∀ endpoints, ∃ n, (getAMMInfoRun endpoints attempt).2 = endpoints.take n)
    ∧ (∀ pre ep post r, (∀ e ∈ pre, ∃ m, attempt e = Except.error m) →
        attempt ep = Except.ok r →
        getAMMInfoRun (pre ++ ep :: post) attempt = (Except.ok r, pre ++ [ep]))
    ∧ (∀ endpoints, (∀ e ∈ endpoints, ∃ m, attempt e = Except.error m) →
        getAMMInfoRun endpoints attempt
          = (Except.error "Failed to get AMM info from all available nodes", endpoints)) := by
  refine ⟨?_, ?_, ?_⟩
  · intro endpoints
    induction endpoints with
    | nil => exact ⟨0, rfl⟩
    | cons e rest ih =>
      cases h : attempt e with
      | ok r => exact ⟨1, by simp [getAMMInfoRun, h]⟩
      | error m =>
        obtain ⟨n, hn⟩ := ih
        exact ⟨n + 1, by simp [getAMMInfoRun, h, hn]⟩
  · intro pre ep post r hpre hok
    induction pre with
    | nil => simp [getAMMInfoRun, hok]
    | cons p pre' ih =>
      obtain ⟨m, hm⟩ := hpre p (List.mem_cons_self _ _)
      have := ih (fun e he => hpre e (List.mem_cons_of_mem _ he))
      simp [getAMMInfoRun, hm, this]
  · intro endpoints hall
    induction endpoints with
    | nil => rfl
    | cons e rest ih =>
      obtain ⟨m, hm⟩ := hall e (List.mem_cons_self _ _)
      have := ih (fun x hx => hall x (List.mem_cons_of_mem _ hx))
      simp [getAMMInfoRun, hm, this]

/-- Witness for C2: the source endpoint list, first two endpoints
down, third succeeding — exactly three attempts in order and the
third's response as result. -/
theorem getAMMInfo_failover_witness :
    getAMMInfoRun ["wss://s2.ripple.com/", "wss://s1.ripple.com/", "wss://xrplcluster.com/"]
        (fun e => if e = "wss://xrplcluster.com/" then Except.ok 7 else Except.error "down")
      = (Except.ok 7,
         ["wss://s2.ripple.com/", "wss://s1.ripple.com/", "wss://xrplcluster.com/"]) :=
  (getAMMInfo_failover _).2.1 ["wss://s2.ripple.com/", "wss://s1.ripple.com/"]
    "wss://xrplcluster.com/" [] 7
    (by intro e he; fin_cases he <;> exact ⟨"down", by rfl⟩) (by rfl)

/-- Counterexample to C2 as stated: two complete failures whose last
errors differ ("E1" vs "E2") produce the identical aggregate error, so
the aggregate error cannot name the last failure. -/
theorem getAMMInfo_error_constant :
    (getAMMInfoRun ["a", "b"] (fun _ => (Except.error "E1" : Except String ℕ))).1
      = (getAMMInfoRun ["a", "b"] (fun _ => (Except.error "E2" : Except String ℕ))).1
    ∧ (getAMMInfoRun ["a", "b"] (fun _ => (Except.error "E1" : Except String ℕ))).1
      = Except.error "Failed to get AMM info from all available nodes" :=
  ⟨rfl, rfl⟩

/-! ### Claim C3 -/

/-- Claim C3: `assessPoolHealth` is total on every rational imbalance
percentage and classifies with inclusive lower boundaries:
`x ≤ 1 ↦ Excellent`, `1 < x ≤ 3 ↦ Good`, `3 < x ≤ 5 ↦ Fair`,
`5 < x ≤ 10 ↦ Poor`, `10 < x ↦ Critical`; in particular
`1 ↦ Excellent`, `1.0001 ↦ Good`, `10 ↦ Poor`, `10.0001 ↦ Critical`. -/
theorem assessPoolHealth_classification (x : ℚ) :
    ((assessPoolHealth x).status = "Excellent" ↔ x ≤ 1)
    ∧ ((assessPoolHealth x).status = "Good" ↔ 1 < x ∧ x ≤ 3)
    ∧ ((assessPoolHealth x).status = "Fair" ↔ 3 < x ∧ x ≤ 5)
    ∧ ((assessPoolHealth x).status = "Poor" ↔ 5 < x ∧ x ≤ 10)
    ∧ ((assessPoolHealth x).status = "Critical" ↔ 10 < x)
    ∧ (assessPoolHealth 1).status = "Excellent"
    ∧ (assessPoolHealth (10001/10000)).status = "Good"
    ∧ (assessPoolHealth 10).status = "Poor"
    ∧ (assessPoolHealth (100001/10000)).status = "Critical" := by
  refine ⟨?_, ?_, ?_, ?_, ?_, ?_, ?_, ?_, ?_⟩ <;>
    unfold assessPoolHealth <;>
    split_ifs with h1 h2 h3 h4 <;>
    simp_all <;>
    first
      | linarith
      | (intro h5; linarith)

/-! ### Claim C4 -/

/-- Claim C4 (code bug evaluation): the derived `spotPrice` is not
carried to 28 significant digits.  The sources configure only
`EXPONENTIAL_AT`, so division rounds at `bignumber.js`'s default 20
decimal places: for a pool of 1 drop of XRP against `10^15` tokens the
computed spot price is exactly `0`, although the exact quotient
`10^-21` is nonzero — every significant digit is lost.  (Separately,
`updateData.js` line 272 and `livePrice.js` line 43 compute `marketCap`
in native binary floating point, outside this decimal pipeline
altogether.) -/
theorem spotPrice_loses_precision :
    spotPrice (xrpAmountOfDrops 1) 1000000000000000 = 0
    ∧ xrpAmountOfDrops 1 / 1000000000000000 ≠ 0 := by
  constructor
  · norm_num [spotPrice, xrpAmountOfDrops, dividedBy, roundDp20, roundHalfUp, decimalScale]
  · norm_num [xrpAmountOfDrops, dividedBy, roundDp20, roundHalfUp, decimalScale]

/-! ### Claim C5 -/

/-- Counterexample to C5 as stated: for the nonnegative reserves
`b = 10^-6` (one drop of XRP) and `q = 10^15` with `q ≠ 0`, the
computed product `spotPrice · pricePerXRP` is exactly `0`, not `1`
within any epsilon below `1`: the 20-decimal-place division rounds the
tiny spot price to `0`. -/
theorem spotPrice_product_zero :
    spotPrice (1/1000000) 1000000000000000 * pricePerXRP (1/1000000) 1000000000000000
      = 0 := by
  norm_num [spotPrice, pricePerXRP, dividedBy, roundDp20, roundHalfUp, decimalScale]

/-- Claim C5 (amended): for strictly positive reserves `b, q`, the
computed product `spotPrice(b,q) · pricePerXRP(b,q)` differs from `1`
by at most the epsilon induced by the configured 20-decimal-place
division, `(1/(2·10^20))·(b/q + q/b) + (1/(2·10^20))^2`; the epsilon
necessarily grows with the ratio of the reserves, and for extreme
ratios (the counterexample) the product is not near `1` at all. -/
theorem spotPrice_product_near_one (b q : ℚ) (hb : 0 < b) (hq : 0 < q) :
    |spotPrice b q * pricePerXRP b q - 1|
      ≤ (1 / 200000000000000000000) * (b / q + q / b)
        + (1 / 200000000000000000000)^2 := by
  have hs : (0:ℚ) < b / q := div_pos hb hq
  have hp : (0:ℚ) < q / b := div_pos hq hb
  have hsp : (b / q) * (q / b) = 1 := by field_simp
  have e1 := roundDp20_err (b / q) hs.le
  have e2 := roundDp20_err (q / b) hp.le
  rw [abs_le] at e1 e2
  unfold spotPrice pricePerXRP dividedBy
  rw [abs_le]
  constructor <;> nlinarith [e1.1, e1.2, e2.1, e2.2, hs, hp, hsp, mul_pos hs hp]

/-- Witness for C5 (amended) at the balanced pool `b = q = 1`. -/
theorem spotPrice_product_near_one_witness :
    |spotPrice 1 1 * pricePerXRP 1 1 - 1|
      ≤ (1 / 200000000000000000000) * (1 / 1 + 1 / 1)
        + (1 / 200000000000000000000)^2 :=
  spotPrice_product_near_one 1 1 (by norm_num) (by norm_num)

/-! ### Claim C6 -/

/-- Claim C6: `calculatePriceChange` returns `0` (and, being a total
function, never throws) whenever no history entry lies in the trailing
window — in particular on the empty history; when the selected past
entry has price `0` it returns `0`; otherwise it returns
`(current − past) / past · 100` with `current` the last entry.  On a
time-sorted history the selected entry is the oldest one inside the
window and the last entry is the most recent of all. -/
theorem calculatePriceChange_spec (priceHistory : List PriceEntry) (hoursAgo now : ℤ) :
    calculatePriceChange [] hoursAgo now = 0
    ∧ ((∀ e ∈ priceHistory, e.timestamp < now - hoursAgo * 60 * 60 * 1000) →
        calculatePriceChange priceHistory hoursAgo now = 0)
    ∧ (∀ p, priceHistory.find?
          (fun e => decide (now - hoursAgo * 60 * 60 * 1000 ≤ e.timestamp)) = some p →
        (List.Pairwise (fun a b => a.timestamp ≤ b.timestamp) priceHistory →
          (∀ e ∈ priceHistory, now - hoursAgo * 60 * 60 * 1000 ≤ e.timestamp →
            p.timestamp ≤ e.timestamp)
          ∧ ∀ c, priceHistory.getLast? = some c →
              ∀ e ∈ priceHistory, e.timestamp ≤ c.timestamp)
        ∧ (p.spotPrice = 0 → calculatePriceChange priceHistory hoursAgo now = 0)
        ∧ (∀ c, priceHistory.getLast? = some c → p.spotPrice ≠ 0 →
            calculatePriceChange priceHistory hoursAgo now
              = dividedBy (c.spotPrice - p.spotPrice) p.spotPrice * 100)) := by
  refine ⟨rfl, ?_, ?_⟩
  · intro hall
    have hnone : priceHistory.find?
        (fun e => decide (now - hoursAgo * 60 * 60 * 1000 ≤ e.timestamp)) = none :=
      List.find?_eq_none.mpr fun x hx => by simpa using not_le.mpr (hall x hx)
    simp only [calculatePriceChange]
    rw [hnone]
  · intro p hfind
    refine ⟨?_, ?_, ?_⟩
    · intro hs
      exact ⟨find?_timestamp_min _ _ _ hs hfind,
        fun c hc => getLast?_timestamp_max _ _ hs hc⟩
    · intro hzero
      cases hl : priceHistory.getLast? with
      | none => simp only [calculatePriceChange]; rw [hfind, hl]
      | some c => simp only [calculatePriceChange]; rw [hfind, hl]; simp [hzero]
    · intro c hc hne
      simp only [calculatePriceChange]
      rw [hfind, hc]
      simp [hne]

/-- Witness for C6: a two-entry history whose window covers both
entries; the change from price `2` to price `3` is `50%` up to the
configured division. -/
theorem calculatePriceChange_spec_witness :
    calculatePriceChange [⟨0, 2⟩, ⟨100, 3⟩] 1 3600000
      = dividedBy ((3:ℚ) - 2) 2 * 100 :=
  ((calculatePriceChange_spec [⟨0, 2⟩, ⟨100, 3⟩] 1 3600000).2.2 ⟨0, 2⟩ (by rfl)).2.2
    ⟨100, 3⟩ (by rfl) (by norm_num)

/-! ### Claim C7 -/

/-- Claim C7 (amended): a failure of one entity is caught at the
per-entity boundary — deleting a failing outcome from the batch leaves
the persisted updates of the other entities unchanged, so every other
entity is still processed and persisted and the cycle completes; the
number of persisted updates equals the number of succeeding entities;
and the volume-data runner's reported counters equal exactly the
number of updated and the number of failed entities.  (The AMM
runner's cycle report itself carries no counts — see the
counterexample.) -/
theorem batch_isolation {α : Type} (xs ys : List (Except String α)) (m : String)
    (outcomes : List (Except String α)) :
    processTokens (xs ++ Except.error m :: ys) = processTokens (xs ++ ys)
    ∧ (processTokens outcomes).length = List.countP isOkOutcome outcomes
    ∧ updateVolumeDataCounts outcomes
        = (List.countP isOkOutcome outcomes,
           List.countP (fun o => !isOkOutcome o) outcomes) := by
  refine ⟨?_, ?_, ?_⟩
  · induction xs with
    | nil => simp [processTokens, processToken]
    | cons x xs ih => cases x <;> simp [processTokens, processToken, ih]
  · induction outcomes with
    | nil => rfl
    | cons o rest ih =>
      cases o <;> simp [processTokens, processToken, isOkOutcome, ih, List.countP_cons]
  · induction outcomes with
    | nil => rfl
    | cons o rest ih =>
      cases o <;> simp [updateVolumeDataCounts, isOkOutcome, ih, List.countP_cons]

/-- Counterexample to C7 as stated for the cited runner
(src/unnamed/part_000): its end-of-cycle report is the same fixed
string for a batch with one failure as for a batch with none, so that
runner does not report the number of updated or failed entities — even
though the other entities are still processed (second conjunct). -/
theorem runnerReport_carries_no_counts :
    updateAMMInfoSummary [(Except.error "boom" : Except String ℕ)]
      = updateAMMInfoSummary [(Except.ok 0 : Except String ℕ)]
    ∧ processTokens [(Except.error "boom" : Except String ℕ), Except.ok 1, Except.ok 2]
      = [1, 2] :=
  ⟨rfl, rfl⟩

/-! ### Claim C8 -/

/-- Claim C8 (amended): in the part_000 client a parsed response that
lacks a `result` field rejects the attempt (error `"Invalid response
format"`), a parse failure likewise rejects, and a present `result`
resolves; a rejected first endpoint makes the failover proceed to the
second.  The part_001/part_002 clients however resolve with the absent
result instead of rejecting. -/
theorem missingResult_rejects {α : Type} (r : α) (e2res : α)
    (attempt : String → Except String α) :
    fetchAMMInfoOnMessage (α := α) (some none) = Except.error "Invalid response format"
    ∧ fetchAMMInfoOnMessage (some (some r)) = Except.ok r
    ∧ fetchAMMInfoOnMessage (α := α) none = Except.error "Failed to parse WebSocket message"
    ∧ getAMMInfoOnMessageV1 (α := α) none = Except.ok none
    ∧ (attempt "e1" = Except.error "Invalid response format" →
        attempt "e2" = Except.ok e2res →
        getAMMInfoRun ["e1", "e2"] attempt = (Except.ok e2res, ["e1", "e2"])) := by
  refine ⟨rfl, rfl, rfl, rfl, ?_⟩
  intro h1 h2
  simp [getAMMInfoRun, h1, h2]

/-- Witness for C8 (amended): a concrete attempt function whose first
endpoint rejects with the missing-`result` error and whose second
endpoint succeeds. -/
theorem missingResult_rejects_witness :
    fetchAMMInfoOnMessage (α := ℕ) (some none) = Except.error "Invalid response format"
    ∧ getAMMInfoRun ["e1", "e2"]
        (fun e => if e = "e1" then (Except.error "Invalid response format" : Except String ℕ)
                  else Except.ok 5)
      = (Except.ok 5, ["e1", "e2"]) :=
  ⟨(missingResult_rejects 0 5 (fun _ => Except.ok 0)).1,
   (missingResult_rejects 0 5 _).2.2.2.2 (by rfl) (by rfl)⟩

/-- Counterexample to C8 as stated: the part_001/part_002 message
handler resolves — it does not reject — when the parsed response has
no `result` field, returning the absent value to the caller. -/
theorem missingResult_resolves :
    getAMMInfoOnMessageV1 (α := ℕ) none = Except.ok none := rfl

/-! ### Claim C9 -/

/-- Claim C9 (amended): the 10-second timer bounds only connection
establishment.  An attempt whose connection has not opened within
10000 ms settles at 10000 ms with the connection-timeout failure; but
the `open` handler clears the timer, so once the connection is open
the attempt settles exactly when a message arrives — at `max tOpen
tMsg`, however late that is — and if no message ever arrives it never
settles at all. -/
theorem timeout_bounds_connection_only {α : Type} (tOpen tMsg : ℕ)
    (parsed : Option (Option α)) (message : Option (ℕ × Option (Option α))) :
    fetchAMMInfoRun (α := α) none message
        = some (10000, Except.error "WebSocket connection timeout")
    ∧ (10000 ≤ tOpen → fetchAMMInfoRun (α := α) (some tOpen) message
        = some (10000, Except.error "WebSocket connection timeout"))
    ∧ (tOpen < 10000 → fetchAMMInfoRun (some tOpen) (some (tMsg, parsed))
        = some (max tOpen tMsg, fetchAMMInfoOnMessage parsed))
    ∧ (tOpen < 10000 → fetchAMMInfoRun (α := α) (some tOpen) none = none) := by
  refine ⟨rfl, ?_, ?_, ?_⟩
  · intro h
    simp [fetchAMMInfoRun, h]
  · intro h
    simp [fetchAMMInfoRun, Nat.not_le.mpr h]
  · intro h
    simp [fetchAMMInfoRun, Nat.not_le.mpr h]

/-- Witness for C9 (amended): a connection that opens too late is cut
at 10000 ms; one that opens at 500 ms and answers at 25000 ms settles
at 25000 ms — far beyond the 10-second timer; one that opens at 500 ms
and never hears back never settles. -/
theorem timeout_bounds_connection_only_witness :
    fetchAMMInfoRun (α := ℕ) (some 12000) none
        = some (10000, Except.error "WebSocket connection timeout")
    ∧ fetchAMMInfoRun (α := ℕ) (some 500) (some (25000, some (some 3)))
        = some (25000, Except.ok 3)
    ∧ fetchAMMInfoRun (α := ℕ) (some 500) none = none := by
  refine ⟨(timeout_bounds_connection_only 12000 0 none none).2.1 (by norm_num), ?_,
    (timeout_bounds_connection_only 500 0 (α := ℕ) none none).2.2.2 (by norm_num)⟩
  have h := (timeout_bounds_connection_only 500 25000 (some (some 3))
    (none : Option (ℕ × Option (Option ℕ)))).2.2.1 (by norm_num)
  simpa using h

/-- Counterexample to C9 as stated: an attempt that connects at
5000 ms and then never receives a message never settles — it is not
cancelled at 10 seconds, because the timer was cleared on `open`, so
the attempt waits indefinitely for a response after connecting. -/
theorem connectedAttemptNeverSettles :
    fetchAMMInfoRun (α := ℕ) (some 5000) none = none := rfl

/-! ### Claim C10 -/

/-- Claim C10: when every one of `fetchWithRetry`'s bounded attempts
ends with an HTTP 429 response, the loop `continue`s through its last
iteration and the function returns JavaScript `undefined` — neither a
response nor a thrown error; `fetchVolumeData`'s explicit guard then
turns that absent response into its own error, while a caller without
such a guard proceeds with the absent value. -/
theorem fetchWithRetry_all429_undefined (outcomes : List FetchAttempt)
    (hall : ∀ o ∈ outcomes, o = FetchAttempt.response 429) :
    fetchWithRetry outcomes = FetchResult.undef
    ∧ fetchVolumeDataGuard (fetchWithRetry outcomes)
        = Except.error "No response received from fetchWithRetry" := by
  have hmain : fetchWithRetry outcomes = FetchResult.undef := by
    induction outcomes with
    | nil => rfl
    | cons o rest ih =>
      have ho := hall o (List.mem_cons_self _ _)
      subst ho
      have := ih (fun x hx => hall x (List.mem_cons_of_mem _ hx))
      simp [fetchWithRetry, this]
  exact ⟨hmain, by rw [hmain]; rfl⟩

/-- Witness for C10 at the default `retries = 3`: three straight 429
responses yield `undefined`. -/
theorem fetchWithRetry_all429_undefined_witness :
    fetchWithRetry [FetchAttempt.response 429, FetchAttempt.response 429,
        FetchAttempt.response 429] = FetchResult.undef :=
  (fetchWithRetry_all429_undefined _ (by decide)).1

end XrpFun
